import Mathlib

set_option maxHeartbeats 1000000
set_option maxRecDepth 8000

/- Shallow embedding of the brainrot-analyzer relay engine (src/main.rs):
   the JSON-RPC protocol structures, source/text extraction from envelopes,
   the TikTok/Instagram link classifier, the analysis-pipeline dispatch task
   and the outbound JSON-RPC reply serializer.  Text is modelled as
   List Char; machine strings' byte-level operations (Rust str::len and byte
   slicing) are modelled through explicit UTF-8 byte counts. -/

/-- Whitespace test on one character, modelling the whitespace class shared by
Rust's str::trim, char::is_whitespace and the regex class \s.  (Rust uses full
Unicode White_Space; this development models its ASCII fragment, which is the
fragment every input considered here stays within.) -/
def isWsChar (c : Char) : Bool := c.isWhitespace

/-- The character class of the regex [^\s]: not whitespace. -/
def nonWsB (c : Char) : Bool := !(isWsChar c)

/-- Rust str::trim: strip leading and trailing whitespace. -/
def rustTrim (l : List Char) : List Char :=
  ((l.dropWhile isWsChar).reverse.dropWhile isWsChar).reverse

/-- Length in UTF-8 bytes of a character list, modelling Rust str::len. -/
def utf8Len (l : List Char) : Nat := (l.map Char.utf8Size).sum

/-- Byte slice prefix, modelling Rust &s[..n]: the prefix of exactly n UTF-8
bytes when n falls on a character boundary, none (a panic in Rust) when it
falls inside a character, and none when the string has fewer than n bytes. -/
def takeBytes : Nat → List Char → Option (List Char)
  | 0, _ => some []
  | _ + 1, [] => none
  | n + 1, c :: t =>
    if c.utf8Size ≤ n + 1 then (takeBytes (n + 1 - c.utf8Size) t).map (c :: ·)
    else none

/-- The truncation marker appended by analyze_video, from the format string
"{}...\n\n(truncated)" (main.rs line 294). -/
def truncMarker : List Char := ("...\n\n(truncated)").data

/-- Reply text computed from the raw opencode stdout on pipeline success
(main.rs lines 291-297): trim, then if the byte length exceeds 3000 take the
3000-byte prefix and append the truncation marker.  none models the Rust
panic of the byte slice &trimmed[..3000] when byte 3000 is not a character
boundary. -/
def formatStdout (raw : List Char) : Option (List Char) :=
  if utf8Len (rustTrim raw) > 3000 then
    (takeBytes 3000 (rustTrim raw)).map (· ++ truncMarker)
  else some (rustTrim raw)

-- JSON-RPC structures received from signal-cli (main.rs lines 12-50).

/-- Field of syncMessage.sentMessage (main.rs struct SentMessage). -/
structure SentMessage where
  destination : Option (List Char)
  message : Option (List Char)
deriving DecidableEq

/-- Field of envelope.syncMessage (main.rs struct SyncMessage). -/
structure SyncMessage where
  sent_message : Option SentMessage
deriving DecidableEq

/-- Field of envelope.dataMessage (main.rs struct DataMessage). -/
structure DataMessage where
  message : Option (List Char)
deriving DecidableEq

/-- The decoded envelope of a receive notification (main.rs struct Envelope). -/
structure Envelope where
  source_number : Option (List Char)
  source_uuid : Option (List Char)
  data_message : Option DataMessage
  sync_message : Option SyncMessage
deriving DecidableEq

/-- params of a decoded notification (main.rs struct RpcParams). -/
structure RpcParams where
  envelope : Option Envelope
deriving DecidableEq

/-- A decoded JSON-RPC notification (main.rs struct RpcResponse). -/
structure RpcResponse where
  method : Option (List Char)
  params : Option RpcParams
deriving DecidableEq

/-- One line read from the transport's stdout.  serde_json is an external
library, so its outcome on the raw line is carried alongside the raw text:
parsed = none models a line serde_json::from_str rejects (log text, partial
output, arbitrary bytes), parsed = some m a line it decodes to m. -/
structure InputLine where
  raw : List Char
  parsed : Option RpcResponse

/-- The literal "receive" compared against the decoded method. -/
def litReceive : List Char := ("receive").data

/-- Source extraction (main.rs lines 146-155): prefer sourceNumber, fall back
to sourceUuid. -/
def getSource (e : Envelope) : Option (List Char) :=
  match e.source_number with
  | some n => some n
  | none => e.source_uuid

/-- Text extraction (main.rs lines 167-197): a present dataMessage wins and
contributes its (optional) message field; otherwise a syncMessage's
sentMessage contributes its message only when its destination equals the
source identifier. -/
def extractText (e : Envelope) (source : List Char) : Option (List Char) :=
  match e.data_message with
  | some d => d.message
  | none =>
    match e.sync_message with
    | some sync =>
      match sync.sent_message with
      | some sent =>
        if sent.destination = some source then sent.message else none
      | none => none
    | none => none

-- The link classifier: a backtracking matcher specialised to the two
-- regexes of main.rs lines 99-102,
--   tiktok:    https?://(?:www\.|vm\.|vt\.|m\.|t\.)?tiktok\.com/[^\s]+
--   instagram: https?://(?:www\.)?instagram\.com/(?:reel|p|t|v)/[^\s]+
-- under the regex crate's leftmost-first match semantics.

/-- Match a literal against the head of the input; on success return the
remainder. -/
def matchLit : List Char → List Char → Option (List Char)
  | [], s => some s
  | _ :: _, [] => none
  | c :: cs, d :: ds => if c = d then matchLit cs ds else none

/-- Try each literal alternative in order; for each alternative that matches,
run the continuation on the remainder, backtracking to the next alternative
when the continuation fails.  This is leftmost-first alternation of a regex
group followed by the rest of the pattern. -/
def tryAlts (alts : List (List Char)) (k : List Char → Option (List Char))
    (s : List Char) : Option (List Char) :=
  match alts with
  | [] => none
  | a :: rest =>
    match matchLit a s with
    | some r =>
      match k r with
      | some r2 => some r2
      | none => tryAlts rest k s
    | none => tryAlts rest k s

/-- Greedy [^\s]+ at the end of a pattern: consume the maximal nonempty run
of non-whitespace characters, returning the remainder. -/
def matchNonWs1 : List Char → Option (List Char)
  | [] => none
  | c :: t => if isWsChar c then none else some (t.dropWhile nonWsB)

/-- The scheme alternatives of https?, greedy optional s first. -/
def schemeAlts : List (List Char) := [("https").data, ("http").data]

/-- The literal :// separating the scheme from the host. -/
def litSep : List Char := ("://").data

/-- The TikTok subdomain group alternatives (?:www\.|vm\.|vt\.|m\.|t\.)?,
the empty string last (the group is optional and greedy). -/
def tiktokSubAlts : List (List Char) :=
  [("www.").data, ("vm.").data, ("vt.").data, ("m.").data, ("t.").data, []]

/-- The literal tiktok.com/ of the TikTok pattern. -/
def litTiktokDom : List Char := ("tiktok.com/").data

/-- The Instagram subdomain group alternatives (?:www\.)?. -/
def instagramSubAlts : List (List Char) := [("www.").data, []]

/-- The literal instagram.com/ of the Instagram pattern. -/
def litInstagramDom : List Char := ("instagram.com/").data

/-- The Instagram content-type segment alternatives (?:reel|p|t|v). -/
def instagramSegAlts : List (List Char) :=
  [("reel").data, ("p").data, ("t").data, ("v").data]

/-- The literal / after the Instagram content-type segment. -/
def litSlash : List Char := ("/").data

/-- Sequencing of a literal with the rest of the pattern: match the literal,
then continue on the remainder. -/
def andThenLit (lit : List Char) (g : List Char → Option (List Char))
    (s : List Char) : Option (List Char) :=
  match matchLit lit s with
  | none => none
  | some r => g r

/-- Try the TikTok regex anchored at the start of s; on a match return the
remainder of s after the matched text. -/
def matchTiktokAt : List Char → Option (List Char) :=
  tryAlts schemeAlts (andThenLit litSep
    (tryAlts tiktokSubAlts (andThenLit litTiktokDom matchNonWs1)))

/-- Try the Instagram regex anchored at the start of s; on a match return the
remainder of s after the matched text. -/
def matchInstagramAt : List Char → Option (List Char) :=
  tryAlts schemeAlts (andThenLit litSep
    (tryAlts instagramSubAlts (andThenLit litInstagramDom
      (tryAlts instagramSegAlts (andThenLit litSlash matchNonWs1)))))

/-- Regex::find: scan the positions of the text left to right and return the
matched substring at the first position where the anchored matcher succeeds
(leftmost match). -/
def findFrom (f : List Char → Option (List Char)) : List Char → Option (List Char)
  | [] =>
    match f [] with
    | some _ => some []
    | none => none
  | c :: t =>
    match f (c :: t) with
    | some r => some (List.take ((c :: t).length - r.length) (c :: t))
    | none => findFrom f t

/-- The two recognised platforms. -/
inductive Platform where
  | tiktok
  | instagram
deriving DecidableEq

/-- A classified link: the platform and the matched URL text. -/
structure DetectedLink where
  platform : Platform
  url : List Char
deriving DecidableEq

/-- The classifier of main.rs lines 201-239: the TikTok pattern is tried on
the whole text first; only if it finds no match anywhere is the Instagram
pattern tried.  At most one link is produced per message. -/
def classify (text : List Char) : Option DetectedLink :=
  match findFrom matchTiktokAt text with
  | some u => some { platform := Platform.tiktok, url := u }
  | none =>
    match findFrom matchInstagramAt text with
    | some u => some { platform := Platform.instagram, url := u }
    | none => none

/-- A dispatch decision of the main loop: the detected link and the reply
target (the source identifier) handed to the spawned analysis task. -/
structure Dispatch where
  platform : Platform
  url : List Char
  replyTarget : List Char
deriving DecidableEq

/-- Processing of one decoded notification by the main loop (main.rs lines
130-239): keep only method "receive", require params, envelope and a source
identifier, extract the text, classify it, and dispatch at most one analysis
task. -/
def handleRpc (m : RpcResponse) : Option Dispatch :=
  if m.method = some litReceive then
    match m.params with
    | none => none
    | some p =>
      match p.envelope with
      | none => none
      | some env =>
        match getSource env with
        | none => none
        | some source =>
          match extractText env source with
          | none => none
          | some text =>
            match classify text with
            | none => none
            | some link =>
              some { platform := link.platform, url := link.url,
                     replyTarget := source }
  else none

/-- Decoding of a line that survived the skip checks (main.rs lines 120-239):
a line serde_json rejects is dropped, a decoded notification is handled. -/
def decodeStep (l : InputLine) : Option Dispatch :=
  match l.parsed with
  | none => none
  | some m => handleRpc m

/-- Processing of one raw input line (main.rs lines 106-128): a line that
trims to empty is skipped; then the debug preview takes the byte slice
&line[..300] whenever the line exceeds 300 bytes (lines 112-117), which
panics when byte 300 falls inside a multibyte character; a surviving line is
decoded and handled.  some d is a normal step whose dispatch decision is d
(none when the line is dropped); the outer none is a panic of the slice. -/
def processLine (l : InputLine) : Option (Option Dispatch) :=
  if rustTrim l.raw = [] then some none
  else if utf8Len l.raw > 300 then
    match takeBytes 300 l.raw with
    | none => none
    | some _ => some (decodeStep l)
  else some (decodeStep l)

/-- The main relay loop over a finite stream of lines: the sequence of
dispatch decisions in arrival order.  A panicking step kills the task that
owns the loop, so no later line is processed. -/
def processLines : List InputLine → List Dispatch
  | [] => []
  | l :: rest =>
    match processLine l with
    | none => []
    | some none => processLines rest
    | some (some d) => d :: processLines rest

-- The analysis pipeline (main.rs analyze_video, download_video_and_subs,
-- extract_frames).  The external commands (yt-dlp, whisper, ffmpeg,
-- opencode) and the filesystem are collaborators, so each invocation's
-- outcome is a field of an environment record; the functions below embed
-- the control flow main.rs builds around those outcomes.

/-- Captured output of one external command: its exit status and the
lossily-decoded stderr (and stdout where used). -/
structure CmdOut where
  success : Bool
  stdout : List Char
  stderr : List Char

/-- One entry of the working directory as seen by the post-download scan of
download_video_and_subs (main.rs lines 364-380): its file stem and optional
extension. -/
structure FileEntry where
  stem : List Char
  ext : Option (List Char)
deriving DecidableEq

/-- Outcomes of the external steps of download_video_and_subs: the yt-dlp
invocation (error = spawn failure), the directory listing it leaves behind,
and the whisper fallback invocation (error = spawn failure). -/
structure DownloadEnv where
  ytdlp : Except (List Char) CmdOut
  entries : List FileEntry
  whisper : Except (List Char) CmdOut

/-- The literal extension vtt. -/
def litVtt : List Char := ("vtt").data

/-- The literal file stem video. -/
def litVideo : List Char := ("video").data

/-- The directory scan of download_video_and_subs (main.rs lines 360-380):
entries without an extension are skipped; a .vtt entry is moved to the subs
directory and records that subtitles were found; otherwise an entry with stem
video becomes the video file (a later one overwrites an earlier one).
Returns (video file if any, whether subtitles were found). -/
def scanDir (entries : List FileEntry) : Option FileEntry × Bool :=
  entries.foldl
    (fun acc e =>
      match e.ext with
      | none => acc
      | some ext =>
        if ext = litVtt then (acc.1, true)
        else if e.stem = litVideo then (some e, acc.2)
        else acc)
    (none, false)

/-- The control flow of download_video_and_subs (main.rs lines 331-411):
fail when yt-dlp cannot be spawned or exits non-zero, fail when no video file
is found, run the whisper fallback when no subtitles were found (a whisper
spawn failure propagates, a whisper non-zero exit is tolerated), and return
the video file. -/
def runDownload (env : DownloadEnv) : Except (List Char) FileEntry :=
  match env.ytdlp with
  | Except.error e => Except.error e
  | Except.ok o =>
    if o.success then
      match scanDir env.entries with
      | (none, _) => Except.error (("Could not find downloaded video file").data)
      | (some v, foundSubs) =>
        if foundSubs then Except.ok v
        else
          match env.whisper with
          | Except.error e => Except.error e
          | Except.ok _ => Except.ok v
    else Except.error (("yt-dlp failed: ").data ++ o.stderr)

/-- Outcome of the external steps of extract_frames: the creation of the
frames directory and the ffmpeg invocation (error = spawn failure). -/
structure ExtractEnv where
  createFrames : Except (List Char) Unit
  ffmpeg : Except (List Char) CmdOut

/-- The control flow of extract_frames (main.rs lines 304-329): fail when the
frames directory cannot be created, when ffmpeg cannot be spawned, or when it
exits non-zero. -/
def runExtract (env : ExtractEnv) : Except (List Char) Unit :=
  match env.createFrames with
  | Except.error e => Except.error e
  | Except.ok _ =>
    match env.ffmpeg with
    | Except.error e => Except.error e
    | Except.ok o =>
      if o.success then Except.ok ()
      else Except.error (("ffmpeg failed: ").data ++ o.stderr)

/-- Outcomes of the external steps of analyze_video itself: whether the fixed
temp directory pre-exists, the two create_dir_all calls, the download and
frame-extraction environments, and the opencode invocation (error = spawn
failure). -/
structure PipelineEnv where
  tempDirExists : Bool
  createTemp : Except (List Char) Unit
  createSubs : Except (List Char) Unit
  download : DownloadEnv
  extract : ExtractEnv
  opencode : Except (List Char) CmdOut

/-- A filesystem or pipeline operation issued by analyze_video, recorded in
issue order. -/
inductive FsOp where
  | removeDirAll (path : List Char)
  | createDirAll (path : List Char)
  | download (url : List Char)
deriving DecidableEq

/-- The fixed working directory /tmp/brainrot_summarizer of analyze_video
(main.rs line 246) — a constant, independent of the analysed URL. -/
def tempDirPath : List Char := ("/tmp/brainrot_summarizer").data

/-- The subtitle subdirectory of the fixed working directory. -/
def subsDirPath : List Char := tempDirPath ++ ("/subs").data

/-- analyze_video (main.rs lines 245-302): remove the fixed working directory
when it pre-exists, create it and its subs subdirectory, download, extract
frames, run opencode; on opencode success the reply is the trimmed stdout
truncated to 3000 bytes, on opencode non-zero exit the reply is an
"Opencode Failed: " message built from the trimmed stderr; any earlier
failure is an error.  Returns the trace of working-directory operations
together with the outcome; the outcome none models the byte-slice panic of
the truncation. -/
def analyzeVideo (url : List Char) (env : PipelineEnv) :
    List FsOp × Option (Except (List Char) (List Char)) :=
  let pre := (if env.tempDirExists then [FsOp.removeDirAll tempDirPath] else [])
      ++ [FsOp.createDirAll tempDirPath]
  match env.createTemp with
  | Except.error e => (pre, some (Except.error e))
  | Except.ok _ =>
    let pre2 := pre ++ [FsOp.createDirAll subsDirPath]
    match env.createSubs with
    | Except.error e => (pre2, some (Except.error e))
    | Except.ok _ =>
      let pre3 := pre2 ++ [FsOp.download url]
      match runDownload env.download with
      | Except.error e => (pre3, some (Except.error e))
      | Except.ok _ =>
        match runExtract env.extract with
        | Except.error e => (pre3, some (Except.error e))
        | Except.ok _ =>
          match env.opencode with
          | Except.error e => (pre3, some (Except.error e))
          | Except.ok o =>
            if o.success then (pre3, (formatStdout o.stdout).map Except.ok)
            else
              (pre3, some (Except.ok
                ((("Opencode Failed: ").data ++ rustTrim o.stderr))))

/-- The body of the spawned dispatch task (main.rs lines 209-218 and
227-236): on Ok the reply (target, result) is enqueued to the reply channel;
on Err only a diagnostic line is printed and nothing is enqueued; a panicked
task (none) enqueues nothing.  Returns the list of enqueued replies. -/
def dispatchTask (result : Option (Except (List Char) (List Char)))
    (target : List Char) : List (List Char × List Char) :=
  match result with
  | some (Except.ok msg) => [(target, msg)]
  | some (Except.error _) => []
  | none => []

/-- One dispatched analysis run end to end: the replies the task for a given
URL and reply target enqueues under a given pipeline environment. -/
def runDispatch (url target : List Char) (env : PipelineEnv) :
    List (List Char × List Char) :=
  dispatchTask (analyzeVideo url env).2 target

-- The reply serializer (main.rs send_rpc and the stdin writer task,
-- lines 91-97 and 414-433): serde_json serialization of JsonRpcRequest
-- and the single-consumer FIFO write loop.

/-- serde_json escaping of one character inside a JSON string: quote and
backslash are escaped, control characters below 0x20 use the short escapes
where they exist and \u00XX otherwise, everything else is emitted as is. -/
def jsonEscapeChar (c : Char) : List Char :=
  if c = '"' then ['\\', '"']
  else if c = '\\' then ['\\', '\\']
  else if c = Char.ofNat 8 then ['\\', 'b']
  else if c = Char.ofNat 9 then ['\\', 't']
  else if c = Char.ofNat 10 then ['\\', 'n']
  else if c = Char.ofNat 12 then ['\\', 'f']
  else if c = Char.ofNat 13 then ['\\', 'r']
  else if c.toNat < 32 then
    ['\\', 'u', '0', '0', (Nat.digitChar (c.toNat / 16)), (Nat.digitChar (c.toNat % 16))]
  else [c]

/-- serde_json escaping of a whole string body. -/
def jsonEscape (s : List Char) : List Char := (s.map jsonEscapeChar).flatten

/-- A JSON string literal: quoted escaped body. -/
def jsonStr (s : List Char) : List Char := '"' :: (jsonEscape s ++ ['"'])

/-- serde_json::to_string of JsonRpcRequest (main.rs lines 53-65 and
415-423): fields in declaration order, method send, the recipient as a
one-element array, the constant id "100". -/
def encodeRequest (recipient message : List Char) : List Char :=
  ("\x7b\"jsonrpc\":\"2.0\",\"method\":\"send\",\"params\":\x7b\"recipient\":[").data
    ++ jsonStr recipient
    ++ ("],\"message\":").data
    ++ jsonStr message
    ++ ("\x7d,\"id\":\"100\"\x7d").data

/-- An operation on the transport's input stream. -/
inductive StreamOp where
  | write (bytes : List Char)
  | flush
deriving DecidableEq

/-- send_rpc (main.rs lines 414-433): serialize the request, append the
newline, write it in one write_all call, then flush. -/
def sendRpcOps (recipient message : List Char) : List StreamOp :=
  [StreamOp.write (encodeRequest recipient message ++ ['\n']), StreamOp.flush]

/-- The stdin writer task (main.rs lines 91-97): the sole consumer of the
reply channel, draining it in FIFO order and performing send_rpc for each
entry.  Returns the full sequence of stream operations. -/
def writerRun : List (List Char × List Char) → List StreamOp
  | [] => []
  | (recipient, message) :: rest => sendRpcOps recipient message ++ writerRun rest

-- Spec-side URL shape predicates (written from the words of spec.md §4.2),
-- used to state the classifier claims and to compare the spec's description
-- against the matchers embedded from the source.

/-- The spec's URL shape for TikTok:
scheme://[optional known subdomain.]tiktok.com/<nonempty whitespace-free
path> occurring as a prefix (the path extends to the first whitespace or end
of string, so only its first character is constrained here). -/
def tiktokUrlShape (s : List Char) : Prop :=
  ∃ sch sub c t, sch ∈ schemeAlts ∧ sub ∈ tiktokSubAlts ∧ nonWsB c = true ∧
    s = sch ++ (litSep ++ (sub ++ (litTiktokDom ++ c :: t)))

/-- The URL shape the Instagram matcher actually requires: as the TikTok
shape, but the path must start with one of the content-type segments reel, p,
t, v followed by a slash and at least one further non-whitespace character. -/
def instagramUrlShape (s : List Char) : Prop :=
  ∃ sch sub seg c t, sch ∈ schemeAlts ∧ sub ∈ instagramSubAlts ∧
    seg ∈ instagramSegAlts ∧ nonWsB c = true ∧
    s = sch ++ (litSep ++ (sub ++ (litInstagramDom ++ (seg ++ (litSlash ++ c :: t)))))

/-- Modelled from the spec: the URL shape spec.md §4.2 claims for Instagram —
scheme://[optional known subdomain.]instagram.com/<nonempty whitespace-free
path> with no constraint on the path beyond being non-whitespace. -/
def specClaimedInstagramShape (s : List Char) : Prop :=
  ∃ sch sub c t, sch ∈ schemeAlts ∧ sub ∈ instagramSubAlts ∧ nonWsB c = true ∧
    s = sch ++ (litSep ++ (sub ++ (litInstagramDom ++ c :: t)))

-- Helper lemmas about the matcher combinators.

theorem matchLit_eq_some (lit : List Char) :
    ∀ s r, matchLit lit s = some r ↔ s = lit ++ r := by
  induction lit with
  | nil => intro s r; simp [matchLit]
  | cons c cs ih =>
    intro s r
    cases s with
    | nil => simp [matchLit]
    | cons d ds =>
      by_cases h : c = d
      · subst h
        simp [matchLit, ih]
      · simp [matchLit, h]
        intro h'
        exact absurd h'.symm h

theorem matchNonWs1_eq_some (s r : List Char) :
    matchNonWs1 s = some r ↔
      ∃ c t, s = c :: t ∧ nonWsB c = true ∧ r = t.dropWhile nonWsB := by
  cases s with
  | nil => simp [matchNonWs1]
  | cons c t =>
    cases h : isWsChar c with
    | true =>
      simp only [matchNonWs1, h, if_true]
      constructor
      · intro h'; cases h'
      · rintro ⟨c', t', he, hc', _⟩
        cases he
        rw [nonWsB, h] at hc'
        cases hc'
    | false =>
      simp only [matchNonWs1, h, if_false]
      constructor
      · intro h'
        injection h' with h''
        exact ⟨c, t, rfl, by rw [nonWsB, h]; rfl, h''.symm⟩
      · rintro ⟨c', t', he, _, hr⟩
        cases he
        rw [hr]
        simp

theorem matchNonWs1_isSome (s : List Char) :
    (matchNonWs1 s).isSome = true ↔ ∃ c t, s = c :: t ∧ nonWsB c = true := by
  constructor
  · intro h
    obtain ⟨r, hr⟩ := Option.isSome_iff_exists.mp h
    obtain ⟨c, t, he, hc, _⟩ := (matchNonWs1_eq_some s r).mp hr
    exact ⟨c, t, he, hc⟩
  · rintro ⟨c, t, he, hc⟩
    have : matchNonWs1 s = some (t.dropWhile nonWsB) :=
      (matchNonWs1_eq_some s _).mpr ⟨c, t, he, hc, rfl⟩
    rw [this]; rfl

theorem andThenLit_eq_some (lit : List Char) (g : List Char → Option (List Char))
    (s r : List Char) :
    andThenLit lit g s = some r ↔
      ∃ r1, matchLit lit s = some r1 ∧ g r1 = some r := by
  unfold andThenLit
  cases h : matchLit lit s <;> simp [h]

theorem andThenLit_isSome (lit : List Char) (g : List Char → Option (List Char))
    (s : List Char) :
    (andThenLit lit g s).isSome = true ↔
      ∃ r1, matchLit lit s = some r1 ∧ (g r1).isSome = true := by
  unfold andThenLit
  cases h : matchLit lit s <;> simp [h]

theorem tryAlts_isSome_iff (k : List Char → Option (List Char)) :
    ∀ (alts : List (List Char)) (s : List Char),
      (tryAlts alts k s).isSome = true ↔
        ∃ a, a ∈ alts ∧ ∃ r, matchLit a s = some r ∧ (k r).isSome = true := by
  intro alts
  induction alts with
  | nil => intro s; simp [tryAlts]
  | cons a rest ih =>
    intro s
    simp only [tryAlts]
    cases hm : matchLit a s with
    | none =>
      simp only [hm]
      rw [ih]
      constructor
      · rintro ⟨b, hb, hr⟩
        exact ⟨b, List.mem_cons_of_mem a hb, hr⟩
      · rintro ⟨b, hb, r, hmr, hk⟩
        rcases List.mem_cons.mp hb with h | h
        · subst h; rw [hm] at hmr; cases hmr
        · exact ⟨b, h, r, hmr, hk⟩
    | some r =>
      simp only [hm]
      cases hk : k r with
      | some r2 =>
        simp only [hk]
        constructor
        · intro _
          exact ⟨a, List.mem_cons_self a rest, r, hm, by rw [hk]; rfl⟩
        · intro _
          rfl
      | none =>
        simp only [hk]
        rw [ih]
        constructor
        · rintro ⟨b, hb, hr⟩
          exact ⟨b, List.mem_cons_of_mem a hb, hr⟩
        · rintro ⟨b, hb, r', hmr, hkr⟩
          rcases List.mem_cons.mp hb with h | h
          · subst h
            rw [hm] at hmr
            injection hmr with h'
            subst h'
            rw [hk] at hkr
            cases hkr
          · exact ⟨b, h, r', hmr, hkr⟩

theorem tryAlts_eq_some (k : List Char → Option (List Char)) :
    ∀ (alts : List (List Char)) (s r : List Char), tryAlts alts k s = some r →
      ∃ a, a ∈ alts ∧ ∃ r1, matchLit a s = some r1 ∧ k r1 = some r := by
  intro alts
  induction alts with
  | nil => intro s r h; simp [tryAlts] at h
  | cons a rest ih =>
    intro s r h
    simp only [tryAlts] at h
    cases hm : matchLit a s with
    | none =>
      simp only [hm] at h
      obtain ⟨b, hb, h'⟩ := ih s r h
      exact ⟨b, List.mem_cons_of_mem a hb, h'⟩
    | some r1 =>
      simp only [hm] at h
      cases hk : k r1 with
      | some r2 =>
        simp only [hk] at h
        injection h with h'
        subst h'
        exact ⟨a, List.mem_cons_self a rest, r1, hm, hk⟩
      | none =>
        simp only [hk] at h
        obtain ⟨b, hb, h'⟩ := ih s r h
        exact ⟨b, List.mem_cons_of_mem a hb, h'⟩

theorem matchTiktokAt_isSome_iff (s : List Char) :
    (matchTiktokAt s).isSome = true ↔ tiktokUrlShape s := by
  unfold matchTiktokAt tiktokUrlShape
  rw [tryAlts_isSome_iff]
  constructor
  · rintro ⟨sch, hsch, r1, hm1, hk1⟩
    rw [andThenLit_isSome] at hk1
    obtain ⟨r2, hm2, hk2⟩ := hk1
    rw [tryAlts_isSome_iff] at hk2
    obtain ⟨sub, hsub, r3, hm3, hk3⟩ := hk2
    rw [andThenLit_isSome] at hk3
    obtain ⟨r4, hm4, hk4⟩ := hk3
    rw [matchNonWs1_isSome] at hk4
    obtain ⟨c, t, hr4, hc⟩ := hk4
    rw [matchLit_eq_some] at hm1 hm2 hm3 hm4
    refine ⟨sch, sub, c, t, hsch, hsub, hc, ?_⟩
    rw [hm1, hm2, hm3, hm4, hr4]
  · rintro ⟨sch, sub, c, t, hsch, hsub, hc, hs⟩
    refine ⟨sch, hsch, litSep ++ (sub ++ (litTiktokDom ++ c :: t)),
      (matchLit_eq_some sch s _).mpr hs, ?_⟩
    rw [andThenLit_isSome]
    refine ⟨sub ++ (litTiktokDom ++ c :: t), (matchLit_eq_some _ _ _).mpr rfl, ?_⟩
    rw [tryAlts_isSome_iff]
    refine ⟨sub, hsub, litTiktokDom ++ c :: t, (matchLit_eq_some _ _ _).mpr rfl, ?_⟩
    rw [andThenLit_isSome]
    refine ⟨c :: t, (matchLit_eq_some _ _ _).mpr rfl, ?_⟩
    rw [matchNonWs1_isSome]
    exact ⟨c, t, rfl, hc⟩

theorem matchInstagramAt_isSome_iff (s : List Char) :
    (matchInstagramAt s).isSome = true ↔ instagramUrlShape s := by
  unfold matchInstagramAt instagramUrlShape
  rw [tryAlts_isSome_iff]
  constructor
  · rintro ⟨sch, hsch, r1, hm1, hk1⟩
    rw [andThenLit_isSome] at hk1
    obtain ⟨r2, hm2, hk2⟩ := hk1
    rw [tryAlts_isSome_iff] at hk2
    obtain ⟨sub, hsub, r3, hm3, hk3⟩ := hk2
    rw [andThenLit_isSome] at hk3
    obtain ⟨r4, hm4, hk4⟩ := hk3
    rw [tryAlts_isSome_iff] at hk4
    obtain ⟨seg, hseg, r5, hm5, hk5⟩ := hk4
    rw [andThenLit_isSome] at hk5
    obtain ⟨r6, hm6, hk6⟩ := hk5
    rw [matchNonWs1_isSome] at hk6
    obtain ⟨c, t, hr6, hc⟩ := hk6
    rw [matchLit_eq_some] at hm1 hm2 hm3 hm4 hm5 hm6
    refine ⟨sch, sub, seg, c, t, hsch, hsub, hseg, hc, ?_⟩
    rw [hm1, hm2, hm3, hm4, hm5, hm6, hr6]
  · rintro ⟨sch, sub, seg, c, t, hsch, hsub, hseg, hc, hs⟩
    refine ⟨sch, hsch,
      litSep ++ (sub ++ (litInstagramDom ++ (seg ++ (litSlash ++ c :: t)))),
      (matchLit_eq_some sch s _).mpr hs, ?_⟩
    rw [andThenLit_isSome]
    refine ⟨sub ++ (litInstagramDom ++ (seg ++ (litSlash ++ c :: t))),
      (matchLit_eq_some _ _ _).mpr rfl, ?_⟩
    rw [tryAlts_isSome_iff]
    refine ⟨sub, hsub, litInstagramDom ++ (seg ++ (litSlash ++ c :: t)),
      (matchLit_eq_some _ _ _).mpr rfl, ?_⟩
    rw [andThenLit_isSome]
    refine ⟨seg ++ (litSlash ++ c :: t), (matchLit_eq_some _ _ _).mpr rfl, ?_⟩
    rw [tryAlts_isSome_iff]
    refine ⟨seg, hseg, litSlash ++ c :: t, (matchLit_eq_some _ _ _).mpr rfl, ?_⟩
    rw [andThenLit_isSome]
    refine ⟨c :: t, (matchLit_eq_some _ _ _).mpr rfl, ?_⟩
    rw [matchNonWs1_isSome]
    exact ⟨c, t, rfl, hc⟩

theorem all_nonWs_schemeAlts : ∀ a ∈ schemeAlts, ∀ c ∈ a, nonWsB c = true := by
  decide

theorem all_nonWs_tiktokSubAlts :
    ∀ a ∈ tiktokSubAlts, ∀ c ∈ a, nonWsB c = true := by
  decide

theorem all_nonWs_instagramSubAlts :
    ∀ a ∈ instagramSubAlts, ∀ c ∈ a, nonWsB c = true := by
  decide

theorem all_nonWs_instagramSegAlts :
    ∀ a ∈ instagramSegAlts, ∀ c ∈ a, nonWsB c = true := by
  decide

theorem all_nonWs_litSep : ∀ c ∈ litSep, nonWsB c = true := by decide

theorem all_nonWs_litTiktokDom : ∀ c ∈ litTiktokDom, nonWsB c = true := by
  decide

theorem all_nonWs_litInstagramDom : ∀ c ∈ litInstagramDom, nonWsB c = true := by
  decide

theorem all_nonWs_litSlash : ∀ c ∈ litSlash, nonWsB c = true := by decide

theorem matchTiktokAt_remainder (s r : List Char)
    (h : matchTiktokAt s = some r) : r = s.dropWhile nonWsB := by
  unfold matchTiktokAt at h
  obtain ⟨sch, hsch, r1, hm1, hk1⟩ := tryAlts_eq_some _ _ _ _ h
  rw [andThenLit_eq_some] at hk1
  obtain ⟨r2, hm2, hk2⟩ := hk1
  obtain ⟨sub, hsub, r3, hm3, hk3⟩ := tryAlts_eq_some _ _ _ _ hk2
  rw [andThenLit_eq_some] at hk3
  obtain ⟨r4, hm4, hk4⟩ := hk3
  rw [matchNonWs1_eq_some] at hk4
  obtain ⟨c, t, hr4, hc, hr⟩ := hk4
  rw [matchLit_eq_some] at hm1 hm2 hm3 hm4
  subst hr4 hm4 hm3 hm2 hm1
  rw [hr,
    List.dropWhile_append_of_pos (all_nonWs_schemeAlts sch hsch),
    List.dropWhile_append_of_pos all_nonWs_litSep,
    List.dropWhile_append_of_pos (all_nonWs_tiktokSubAlts sub hsub),
    List.dropWhile_append_of_pos all_nonWs_litTiktokDom,
    List.dropWhile_cons]
  simp [hc]

theorem matchInstagramAt_remainder (s r : List Char)
    (h : matchInstagramAt s = some r) : r = s.dropWhile nonWsB := by
  unfold matchInstagramAt at h
  obtain ⟨sch, hsch, r1, hm1, hk1⟩ := tryAlts_eq_some _ _ _ _ h
  rw [andThenLit_eq_some] at hk1
  obtain ⟨r2, hm2, hk2⟩ := hk1
  obtain ⟨sub, hsub, r3, hm3, hk3⟩ := tryAlts_eq_some _ _ _ _ hk2
  rw [andThenLit_eq_some] at hk3
  obtain ⟨r4, hm4, hk4⟩ := hk3
  obtain ⟨seg, hseg, r5, hm5, hk5⟩ := tryAlts_eq_some _ _ _ _ hk4
  rw [andThenLit_eq_some] at hk5
  obtain ⟨r6, hm6, hk6⟩ := hk5
  rw [matchNonWs1_eq_some] at hk6
  obtain ⟨c, t, hr6, hc, hr⟩ := hk6
  rw [matchLit_eq_some] at hm1 hm2 hm3 hm4 hm5 hm6
  subst hr6 hm6 hm5 hm4 hm3 hm2 hm1
  rw [hr,
    List.dropWhile_append_of_pos (all_nonWs_schemeAlts sch hsch),
    List.dropWhile_append_of_pos all_nonWs_litSep,
    List.dropWhile_append_of_pos (all_nonWs_instagramSubAlts sub hsub),
    List.dropWhile_append_of_pos all_nonWs_litInstagramDom,
    List.dropWhile_append_of_pos (all_nonWs_instagramSegAlts seg hseg),
    List.dropWhile_append_of_pos all_nonWs_litSlash,
    List.dropWhile_cons]
  simp [hc]

theorem take_matched_eq_takeWhile (s r : List Char) (h : r = s.dropWhile nonWsB) :
    s.take (s.length - r.length) = s.takeWhile nonWsB := by
  subst h
  have h1 : s.takeWhile nonWsB ++ s.dropWhile nonWsB = s :=
    List.takeWhile_append_dropWhile nonWsB s
  have h2 : s.length = (s.takeWhile nonWsB).length + (s.dropWhile nonWsB).length := by
    conv_lhs => rw [← h1]
    rw [List.length_append]
  rw [h2, Nat.add_sub_cancel]
  have h3 := List.take_left (s.takeWhile nonWsB) (s.dropWhile nonWsB)
  rw [h1] at h3
  exact h3

theorem findFrom_isSome_iff (f : List Char → Option (List Char)) :
    ∀ s, (findFrom f s).isSome = true ↔ ∃ i, (f (s.drop i)).isSome = true := by
  intro s
  induction s with
  | nil =>
    simp only [findFrom, List.drop_nil]
    cases h : f [] with
    | none => simp [h]
    | some r => simp only [h]; exact ⟨fun _ => ⟨0, rfl⟩, fun _ => rfl⟩
  | cons c t ih =>
    simp only [findFrom]
    cases hm : f (c :: t) with
    | some r =>
      simp only [hm]
      exact ⟨fun _ => ⟨0, by rw [List.drop_zero, hm]; rfl⟩, fun _ => rfl⟩
    | none =>
      simp only [hm]
      rw [ih]
      constructor
      · rintro ⟨i, hi⟩
        exact ⟨i + 1, by simpa using hi⟩
      · rintro ⟨i, hi⟩
        cases i with
        | zero => rw [List.drop_zero, hm] at hi; cases hi
        | succ j => exact ⟨j, by simpa using hi⟩

theorem findFrom_eq_some (f : List Char → Option (List Char)) :
    ∀ s u, findFrom f s = some u →
      ∃ i r, (∀ j, j < i → f (s.drop j) = none) ∧ f (s.drop i) = some r ∧
        u = (s.drop i).take ((s.drop i).length - r.length) := by
  intro s
  induction s with
  | nil =>
    intro u h
    simp only [findFrom] at h
    cases hm : f [] with
    | none => rw [hm] at h; cases h
    | some r =>
      rw [hm] at h
      injection h with h'
      subst h'
      exact ⟨0, r, fun j hj => absurd hj (Nat.not_lt_zero j),
        by simpa using hm, by simp⟩
  | cons c t ih =>
    intro u h
    simp only [findFrom] at h
    cases hm : f (c :: t) with
    | some r =>
      rw [hm] at h
      injection h with h'
      subst h'
      exact ⟨0, r, fun j hj => absurd hj (Nat.not_lt_zero j),
        by simpa using hm, by simp⟩
    | none =>
      rw [hm] at h
      obtain ⟨i, r, hall, hsome, hu⟩ := ih u h
      refine ⟨i + 1, r, ?_, by simpa using hsome, by simpa using hu⟩
      intro j hj
      cases j with
      | zero => simpa using hm
      | succ k => simpa using hall k (Nat.lt_of_succ_lt_succ hj)

theorem dropWhile_isWs_cons_of_nonWs (c : Char) (t : List Char)
    (h : isWsChar c = false) : (c :: t).dropWhile isWsChar = c :: t := by
  rw [List.dropWhile_cons, h]
  simp

theorem dropWhile_isWs_eq_self (l : List Char)
    (h : ∀ c ∈ l, isWsChar c = false) : l.dropWhile isWsChar = l := by
  cases l with
  | nil => rfl
  | cons c t => exact dropWhile_isWs_cons_of_nonWs c t (h c (List.mem_cons_self c t))

theorem rustTrim_eq_self (l : List Char) (h : ∀ c ∈ l, isWsChar c = false) :
    rustTrim l = l := by
  unfold rustTrim
  rw [dropWhile_isWs_eq_self l h,
    dropWhile_isWs_eq_self l.reverse (fun c hc => h c (List.mem_reverse.mp hc)),
    List.reverse_reverse]

theorem rustTrim_repl_newline (n : Nat) :
    rustTrim (List.replicate (n + 1) 'A' ++ ['\n']) = List.replicate (n + 1) 'A' := by
  unfold rustTrim
  have h1 : (List.replicate (n + 1) 'A' ++ ['\n']).dropWhile isWsChar
      = List.replicate (n + 1) 'A' ++ ['\n'] := by
    rw [List.replicate_succ, List.cons_append]
    exact dropWhile_isWs_cons_of_nonWs _ _ (by decide)
  rw [h1, List.reverse_append, List.reverse_replicate]
  have h2 : (['\n'] : List Char).reverse = ['\n'] := rfl
  rw [h2, List.singleton_append, List.dropWhile_cons]
  have h3 : isWsChar '\n' = true := by decide
  rw [h3]
  simp only [if_true]
  rw [List.replicate_succ, dropWhile_isWs_cons_of_nonWs _ _ (by decide),
    ← List.replicate_succ, List.reverse_replicate]

theorem utf8Len_replicate (n : Nat) (c : Char) :
    utf8Len (List.replicate n c) = n * c.utf8Size := by
  induction n with
  | zero => simp [utf8Len]
  | succ m ih =>
    rw [List.replicate_succ]
    unfold utf8Len at ih ⊢
    rw [List.map_cons, List.sum_cons, ih, Nat.succ_mul, Nat.add_comm]

theorem utf8Len_of_single (l : List Char) (h : ∀ c ∈ l, c.utf8Size = 1) :
    utf8Len l = l.length := by
  induction l with
  | nil => rfl
  | cons c t ih =>
    unfold utf8Len at ih ⊢
    rw [List.map_cons, List.sum_cons, List.length_cons,
      h c (List.mem_cons_self c t),
      ih (fun d hd => h d (List.mem_cons_of_mem c hd)), Nat.add_comm]

theorem takeBytes_single : ∀ (n : Nat) (l : List Char),
    (∀ c ∈ l, c.utf8Size = 1) → n ≤ l.length →
    takeBytes n l = some (l.take n) := by
  intro n
  induction n with
  | zero => intro l _ _; cases l <;> rfl
  | succ m ih =>
    intro l h hl
    cases l with
    | nil => simp at hl
    | cons c t =>
      have hc : c.utf8Size = 1 := h c (List.mem_cons_self c t)
      simp only [takeBytes, hc]
      have hle : (1 : Nat) ≤ m + 1 := Nat.succ_le_succ (Nat.zero_le m)
      rw [if_pos hle]
      have ht : takeBytes (m + 1 - 1) t = some (t.take m) := by
        have : m + 1 - 1 = m := rfl
        rw [this]
        exact ih t (fun d hd => h d (List.mem_cons_of_mem c hd))
          (Nat.le_of_succ_le_succ (by simpa using hl))
      rw [ht]
      rfl

theorem takeBytes_two_byte (c : Char) (hc : c.utf8Size = 2) :
    ∀ (n m : Nat), n ≤ m →
    takeBytes (2 * n) (List.replicate m c) = some (List.replicate n c) := by
  intro n
  induction n with
  | zero =>
    intro m _
    rw [Nat.mul_zero]
    cases m with
    | zero => rfl
    | succ m' => rw [List.replicate_succ]; rfl
  | succ k ih =>
    intro m hm
    cases m with
    | zero => simp at hm
    | succ m' =>
      have h2 : 2 * (k + 1) = 2 * k + 1 + 1 := by ring
      rw [h2, List.replicate_succ]
      simp only [takeBytes, hc]
      have hle : (2 : Nat) ≤ 2 * k + 1 + 1 := by omega
      rw [if_pos hle]
      have he : 2 * k + 1 + 1 - 2 = 2 * k := by omega
      rw [he, ih m' (Nat.le_of_succ_le_succ hm)]
      simp [List.replicate_succ]

-- Claim theorems.

/-- C1: the claim says every classified link's analysis task enqueues exactly
one outbound reply, a failure reply on any pipeline failure.  The code does
not: a download failure (here yt-dlp exiting non-zero with stderr "network
unreachable") makes analyze_video return Err, and the Err arm of the dispatch
task only prints a diagnostic, enqueuing nothing — the link yields zero
outbound replies.  The third conjunct contrasts the success path, which does
enqueue exactly one reply; the opencode-failure path would also reply because
analyze_video converts that failure into an Ok message. -/
theorem C1_code_bug_silent_download_failure :
    (analyzeVideo (("https://vm.tiktok.com/ZMabc/").data)
      { tempDirExists := false,
        createTemp := Except.ok (),
        createSubs := Except.ok (),
        download :=
          { ytdlp := Except.ok
              { success := false, stdout := [],
                stderr := ("network unreachable").data },
            entries := [],
            whisper := Except.ok { success := true, stdout := [], stderr := [] } },
        extract :=
          { createFrames := Except.ok (),
            ffmpeg := Except.ok { success := true, stdout := [], stderr := [] } },
        opencode := Except.ok
          { success := true, stdout := ("funny video").data, stderr := [] } }).2
      = some (Except.error (("yt-dlp failed: network unreachable").data))
    ∧ runDispatch (("https://vm.tiktok.com/ZMabc/").data) (("+1555").data)
      { tempDirExists := false,
        createTemp := Except.ok (),
        createSubs := Except.ok (),
        download :=
          { ytdlp := Except.ok
              { success := false, stdout := [],
                stderr := ("network unreachable").data },
            entries := [],
            whisper := Except.ok { success := true, stdout := [], stderr := [] } },
        extract :=
          { createFrames := Except.ok (),
            ffmpeg := Except.ok { success := true, stdout := [], stderr := [] } },
        opencode := Except.ok
          { success := true, stdout := ("funny video").data, stderr := [] } }
      = []
    ∧ runDispatch (("https://vm.tiktok.com/ZMabc/").data) (("+1555").data)
      { tempDirExists := true,
        createTemp := Except.ok (),
        createSubs := Except.ok (),
        download :=
          { ytdlp := Except.ok { success := true, stdout := [], stderr := [] },
            entries :=
              [{ stem := ("video").data, ext := some (("mp4").data) },
               { stem := ("video.en").data, ext := some (("vtt").data) }],
            whisper := Except.ok { success := true, stdout := [], stderr := [] } },
        extract :=
          { createFrames := Except.ok (),
            ffmpeg := Except.ok { success := true, stdout := [], stderr := [] } },
        opencode := Except.ok
          { success := true, stdout := ("funny video").data, stderr := [] } }
      = [((("+1555").data), (("funny video").data))] :=
  ⟨rfl, rfl, rfl⟩

/-- C2 counterexample: the claim as stated is false on the code in two ways.
First, the reply is computed from the trimmed output: a pipeline output of
exactly 3001 characters consisting of 3000 letters and a trailing newline is
returned unchanged (3000 characters, no marker), not as its first 3000
characters plus the marker.  Second, the 3000 threshold and the slice count
UTF-8 bytes, not characters: an output of 3001 two-byte characters is
truncated to its first 1500 characters (3000 bytes) plus the marker, not its
first 3000 characters. -/
theorem C2_counterexample :
    (formatStdout (List.replicate 3000 'A' ++ ['\n'])
        = some (List.replicate 3000 'A')
      ∧ some (List.replicate 3000 'A')
          ≠ some ((List.replicate 3000 'A' ++ ['\n']).take 3000 ++ truncMarker))
    ∧ (formatStdout (List.replicate 3001 (Char.ofNat 233))
        = some (List.replicate 1500 (Char.ofNat 233) ++ truncMarker)
      ∧ some (List.replicate 1500 (Char.ofNat 233) ++ truncMarker)
          ≠ some ((List.replicate 3001 (Char.ofNat 233)).take 3000
              ++ truncMarker)) := by
  have hmlen : truncMarker.length = 16 := rfl
  have e1 : (2999 : Nat) + 1 = 3000 := by norm_num
  have ht : rustTrim (List.replicate 3000 'A' ++ ['\n'])
      = List.replicate 3000 'A' := by
    have h := rustTrim_repl_newline 2999
    rwa [e1] at h
  have hA : ('A').utf8Size = 1 := by decide
  have hlen : utf8Len (List.replicate 3000 'A') = 3000 := by
    rw [utf8Len_replicate, hA]
  have hca : (Char.ofNat 233).utf8Size = 2 := by decide
  have hcw : isWsChar (Char.ofNat 233) = false := by decide
  have ht2 : rustTrim (List.replicate 3001 (Char.ofNat 233))
      = List.replicate 3001 (Char.ofNat 233) :=
    rustTrim_eq_self _ (fun c hc => by rw [List.eq_of_mem_replicate hc]; exact hcw)
  have hlen2 : utf8Len (List.replicate 3001 (Char.ofNat 233)) = 6002 := by
    rw [utf8Len_replicate, hca]
  have htb : takeBytes 3000 (List.replicate 3001 (Char.ofNat 233))
      = some (List.replicate 1500 (Char.ofNat 233)) := by
    have h := takeBytes_two_byte (Char.ofNat 233) hca 1500 3001 (by norm_num)
    rwa [show 2 * 1500 = 3000 from by norm_num] at h
  refine ⟨⟨?_, ?_⟩, ⟨?_, ?_⟩⟩
  · unfold formatStdout
    rw [ht, hlen, if_neg (by norm_num)]
  · intro h
    have h' := congrArg List.length (Option.some.inj h)
    simp only [List.length_append, List.length_take, List.length_replicate,
      List.length_cons, List.length_nil, hmlen] at h'
    omega
  · unfold formatStdout
    rw [ht2, hlen2, if_pos (by norm_num), htb]
    rfl
  · intro h
    have h' := congrArg List.length (Option.some.inj h)
    simp only [List.length_append, List.length_take, List.length_replicate,
      hmlen] at h'
    omega

/-- C2 (amended): the reply is computed from the trimmed pipeline output and
the limit counts UTF-8 bytes; for already-trimmed output of single-byte
characters the claim's statement holds as written — exactly 3001 characters
yield the first 3000 characters followed by the truncation marker, exactly
3000 characters are returned unchanged. -/
theorem C2_truncation_amended (out : List Char)
    (h1 : rustTrim out = out) (h2 : ∀ c ∈ out, c.utf8Size = 1) :
    (out.length = 3001 →
      formatStdout out = some (out.take 3000 ++ truncMarker))
    ∧ (out.length = 3000 → formatStdout out = some out) := by
  constructor
  · intro h3001
    unfold formatStdout
    rw [h1, utf8Len_of_single out h2, h3001, if_pos (by norm_num),
      takeBytes_single 3000 out h2 (by omega)]
    rfl
  · intro h3000
    unfold formatStdout
    rw [h1, utf8Len_of_single out h2, h3000, if_neg (by norm_num)]

/-- C2 witness: the amended truncation theorem applied to a concrete trimmed
single-byte output of 3001 characters. -/
theorem C2_truncation_amended_witness :
    formatStdout (List.replicate 3001 'B')
      = some ((List.replicate 3001 'B').take 3000 ++ truncMarker) := by
  have h1 : rustTrim (List.replicate 3001 'B') = List.replicate 3001 'B' :=
    rustTrim_eq_self _ (fun c hc => by rw [List.eq_of_mem_replicate hc]; decide)
  have h2 : ∀ c ∈ List.replicate 3001 'B', c.utf8Size = 1 :=
    fun c hc => by rw [List.eq_of_mem_replicate hc]; decide
  exact (C2_truncation_amended _ h1 h2).1 (List.length_replicate 3001 'B')

/-- C3: the claim says every line that fails to parse — arbitrary log text
and partial output of any length and content — is dropped while the relay
loop continues, and the spec requires that such input never terminate the
loop.  The code violates this: before parsing, the debug preview takes the
byte slice &line[..300], which panics when the line exceeds 300 bytes and
byte 300 falls inside a multibyte character.  First conjunct: a malformed
311-byte line — 299 ASCII characters, é occupying bytes 299-300, ten more
characters — makes the step panic.  Second: the loop on that line followed by
a well-formed receive line stops dead, losing the later line's dispatch.
Third: the later line alone would have dispatched a TikTok analysis.
Fourth: a malformed line of at most 300 bytes is dropped as the claim
describes, the loop continuing. -/
theorem C3_code_bug_preview_panic :
    processLine
      { raw := List.replicate 299 'a' ++ Char.ofNat 233 :: List.replicate 10 'x',
        parsed := none } = none
    ∧ processLines
        [{ raw := List.replicate 299 'a' ++ Char.ofNat 233 :: List.replicate 10 'x',
           parsed := none },
         { raw := ("\x7b\"method\":\"receive\",\"params\":\x7b\"envelope\":\x7b\"sourceNumber\":\"+1555\",\"dataMessage\":\x7b\"message\":\"check this https://vm.tiktok.com/ZMabc/ out\"\x7d\x7d\x7d\x7d").data,
           parsed := some {
             method := some litReceive,
             params := some { envelope := some {
               source_number := some (("+1555").data),
               source_uuid := none,
               data_message := some { message := some (("check this https://vm.tiktok.com/ZMabc/ out").data) },
               sync_message := none } } } }] = []
    ∧ processLines
        [{ raw := ("\x7b\"method\":\"receive\",\"params\":\x7b\"envelope\":\x7b\"sourceNumber\":\"+1555\",\"dataMessage\":\x7b\"message\":\"check this https://vm.tiktok.com/ZMabc/ out\"\x7d\x7d\x7d\x7d").data,
           parsed := some {
             method := some litReceive,
             params := some { envelope := some {
               source_number := some (("+1555").data),
               source_uuid := none,
               data_message := some { message := some (("check this https://vm.tiktok.com/ZMabc/ out").data) },
               sync_message := none } } } }]
      = [{ platform := Platform.tiktok,
           url := ("https://vm.tiktok.com/ZMabc/").data,
           replyTarget := ("+1555").data }]
    ∧ processLine { raw := ("WARN yt-dlp emitted partial output %%%").data,
                    parsed := none } = some none := by
  refine ⟨?_, ?_, ?_, ?_⟩ <;> rfl

/-- C7: for a self-sync event (no dataMessage, a syncMessage carrying a
sentMessage) whose destination differs from the envelope's source identifier
— including an absent destination — no text is extracted and the main loop
dispatches nothing; the sent payload's message is accepted exactly when the
destination equals the source. -/
theorem C7_selfsync_destination_gate (e : Envelope) (sync : SyncMessage)
    (sent : SentMessage) (src : List Char)
    (hn : e.source_number = some src)
    (hd : e.data_message = none)
    (hs : e.sync_message = some sync)
    (hm : sync.sent_message = some sent) :
    (sent.destination ≠ some src →
      extractText e src = none
      ∧ handleRpc { method := some litReceive,
                    params := some { envelope := some e } } = none)
    ∧ (sent.destination = some src → extractText e src = sent.message) := by
  constructor
  · intro hne
    have hx : extractText e src = none := by
      unfold extractText
      simp only [hd, hs, hm]
      rw [if_neg hne]
    have hgs : getSource e = some src := by
      unfold getSource
      rw [hn]
    refine ⟨hx, ?_⟩
    simp only [handleRpc, if_true]
    simp [hgs, hx]
  · intro heq
    unfold extractText
    simp only [hd, hs, hm]
    rw [if_pos heq]

/-- C7 witness: the self-sync gate applied to a concrete envelope whose
sentMessage is addressed to a third party. -/
theorem C7_selfsync_destination_gate_witness :
    extractText
      { source_number := some (("+1555").data), source_uuid := none,
        data_message := none,
        sync_message := some { sent_message := some {
          destination := some (("+1999").data),
          message := some (("https://vm.tiktok.com/ZMabc/").data) } } }
      (("+1555").data) = none
    ∧ handleRpc { method := some litReceive,
                  params := some { envelope := some {
                    source_number := some (("+1555").data),
                    source_uuid := none,
                    data_message := none,
                    sync_message := some { sent_message := some {
                      destination := some (("+1999").data),
                      message := some
                        (("https://vm.tiktok.com/ZMabc/").data) } } } } }
      = none :=
  (C7_selfsync_destination_gate _ _ _ _ rfl rfl rfl rfl).1 (by decide)

/-- C9: the reply destination is the envelope's sourceNumber when present and
its sourceUuid otherwise; an envelope with neither is dropped with no
dispatch; and any dispatch the loop produces carries exactly the extracted
source as its reply target. -/
theorem C9_source_preference (e : Envelope) :
    (∀ n, e.source_number = some n → getSource e = some n)
    ∧ (e.source_number = none → getSource e = e.source_uuid)
    ∧ (e.source_number = none → e.source_uuid = none →
        handleRpc { method := some litReceive,
                    params := some { envelope := some e } } = none)
    ∧ (∀ d, handleRpc { method := some litReceive,
                        params := some { envelope := some e } } = some d →
          some d.replyTarget = getSource e) := by
  refine ⟨?_, ?_, ?_, ?_⟩
  · intro n hn
    unfold getSource
    rw [hn]
  · intro hn
    unfold getSource
    rw [hn]
  · intro hn hu
    have hs : getSource e = none := by
      unfold getSource
      rw [hn, hu]
    simp only [handleRpc, if_true]
    simp [hs]
  · intro d hd
    simp only [handleRpc, if_true] at hd
    cases hs : getSource e with
    | none => simp [hs] at hd
    | some src =>
      simp only [hs] at hd
      cases hx : extractText e src with
      | none => simp [hx] at hd
      | some text =>
        simp only [hx] at hd
        cases hc : classify text with
        | none => simp [hc] at hd
        | some link =>
          simp only [hc, Option.some.injEq] at hd
          rw [← hd]

/-- C9 witness: the source-preference theorem applied to concrete envelopes —
one with a sourceNumber, one with only a sourceUuid, one with neither. -/
theorem C9_source_preference_witness :
    getSource { source_number := some (("+1555").data),
                source_uuid := some (("uuid-77").data),
                data_message := none, sync_message := none }
      = some (("+1555").data)
    ∧ getSource { source_number := none,
                  source_uuid := some (("uuid-77").data),
                  data_message := none, sync_message := none }
      = some (("uuid-77").data)
    ∧ handleRpc { method := some litReceive,
                  params := some { envelope := some {
                    source_number := none, source_uuid := none,
                    data_message := some { message := some (("hello").data) },
                    sync_message := none } } } = none :=
  ⟨(C9_source_preference _).1 _ rfl,
   (C9_source_preference _).2.1 rfl,
   (C9_source_preference _).2.2.1 rfl rfl⟩

/-- C10: when a dataMessage is present the extracted text is exactly its
message field, whatever the syncMessage holds (the equation holds for every
value of sync_message, so the destination check is never consulted); when
that field is absent the extraction is none and the loop dispatches
nothing. -/
theorem C10_dataMessage_shadows_syncMessage (e : Envelope) (d : DataMessage)
    (h : e.data_message = some d) (source : List Char) :
    extractText e source = d.message
    ∧ (d.message = none →
        handleRpc { method := some litReceive,
                    params := some { envelope := some e } } = none) := by
  refine ⟨by unfold extractText; simp only [h], ?_⟩
  intro hm
  simp only [handleRpc, if_true]
  cases hs : getSource e with
  | none => simp [hs]
  | some src =>
    have hx : extractText e src = none := by
      unfold extractText
      simp only [h, hm]
    simp [hs, hx]

/-- C10 witness: the dataMessage-priority theorem applied to a concrete
envelope whose dataMessage has no message field while its syncMessage holds a
self-addressed link — no text is extracted and nothing is dispatched. -/
theorem C10_dataMessage_shadows_syncMessage_witness :
    extractText
      { source_number := some (("+1555").data), source_uuid := none,
        data_message := some { message := none },
        sync_message := some { sent_message := some {
          destination := some (("+1555").data),
          message := some (("https://vm.tiktok.com/ZMabc/").data) } } }
      (("+1555").data) = none
    ∧ handleRpc { method := some litReceive,
                  params := some { envelope := some {
                    source_number := some (("+1555").data),
                    source_uuid := none,
                    data_message := some { message := none },
                    sync_message := some { sent_message := some {
                      destination := some (("+1555").data),
                      message := some
                        (("https://vm.tiktok.com/ZMabc/").data) } } } } }
      = none :=
  ⟨(C10_dataMessage_shadows_syncMessage _ _ rfl _).1,
   (C10_dataMessage_shadows_syncMessage _ _ rfl (("+1555").data)).2 rfl⟩

/-- C4: for a message text containing both a TikTok URL and an Instagram URL
(each stated as an occurrence of the corresponding URL shape at some
position), the classifier produces exactly one detected link and it is a
TikTok link — the TikTok pattern is consulted first and the remaining matches
are ignored; classification returns an Option, so a single message dispatches
at most one analysis task. -/
theorem C4_tiktok_priority (t : List Char)
    (h1 : ∃ i, tiktokUrlShape (t.drop i))
    (_h2 : ∃ i, instagramUrlShape (t.drop i)) :
    (∃ u, classify t = some { platform := Platform.tiktok, url := u })
    ∧ ∀ d1 d2, classify t = some d1 → classify t = some d2 → d1 = d2 := by
  obtain ⟨i, hi⟩ := h1
  have hsome : (findFrom matchTiktokAt t).isSome = true := by
    rw [findFrom_isSome_iff]
    exact ⟨i, (matchTiktokAt_isSome_iff _).mpr hi⟩
  obtain ⟨u, hu⟩ := Option.isSome_iff_exists.mp hsome
  refine ⟨⟨u, ?_⟩, ?_⟩
  · unfold classify
    rw [hu]
  · intro d1 d2 hd1 hd2
    rw [hd1] at hd2
    exact Option.some.inj hd2

/-- C4 witness: the priority theorem applied to a concrete message holding a
TikTok link followed by an Instagram link. -/
theorem C4_tiktok_priority_witness :
    (∃ i, tiktokUrlShape
      ((("check https://vm.tiktok.com/ZMabc/ and https://www.instagram.com/reel/xyz/ lol").data).drop i))
    ∧ (∃ i, instagramUrlShape
      ((("check https://vm.tiktok.com/ZMabc/ and https://www.instagram.com/reel/xyz/ lol").data).drop i))
    ∧ (∃ u, classify
      (("check https://vm.tiktok.com/ZMabc/ and https://www.instagram.com/reel/xyz/ lol").data)
        = some { platform := Platform.tiktok, url := u }) := by
  have h1 : ∃ i, tiktokUrlShape
      ((("check https://vm.tiktok.com/ZMabc/ and https://www.instagram.com/reel/xyz/ lol").data).drop i) :=
    ⟨6, ("https").data, ("vm.").data, 'Z',
      ("Mabc/ and https://www.instagram.com/reel/xyz/ lol").data,
      by decide, by decide, by decide, by decide⟩
  have h2 : ∃ i, instagramUrlShape
      ((("check https://vm.tiktok.com/ZMabc/ and https://www.instagram.com/reel/xyz/ lol").data).drop i) :=
    ⟨39, ("https").data, ("www.").data, ("reel").data, 'x', ("yz/ lol").data,
      by decide, by decide, by decide, by decide, by decide⟩
  exact ⟨h1, h2, (C4_tiktok_priority _ h1 h2).1⟩

/-- C5 (amended): each matcher accepts exactly the substrings of the form
scheme://[optional known subdomain.]domain/<path>, where for TikTok the path
is any nonempty whitespace-free string while for Instagram it must be one of
the segments reel, p, t, v followed by a slash and a nonempty whitespace-free
remainder; a match always extends to the first whitespace character or the
end of the string; and the find operation returns the match at the first
(leftmost) position admitting one, every earlier position admitting none. -/
theorem C5_classifier_url_shape :
    (∀ s, (matchTiktokAt s).isSome = true ↔ tiktokUrlShape s)
    ∧ (∀ s, (matchInstagramAt s).isSome = true ↔ instagramUrlShape s)
    ∧ (∀ s r, matchTiktokAt s = some r →
        s.take (s.length - r.length) = s.takeWhile nonWsB)
    ∧ (∀ s r, matchInstagramAt s = some r →
        s.take (s.length - r.length) = s.takeWhile nonWsB)
    ∧ (∀ t u, findFrom matchTiktokAt t = some u →
        ∃ i, (∀ j, j < i → matchTiktokAt (t.drop j) = none)
          ∧ tiktokUrlShape (t.drop i) ∧ u = (t.drop i).takeWhile nonWsB)
    ∧ (∀ t u, findFrom matchInstagramAt t = some u →
        ∃ i, (∀ j, j < i → matchInstagramAt (t.drop j) = none)
          ∧ instagramUrlShape (t.drop i) ∧ u = (t.drop i).takeWhile nonWsB)
    ∧ (∀ t, (∃ i, tiktokUrlShape (t.drop i)) →
        (findFrom matchTiktokAt t).isSome = true)
    ∧ (∀ t, (∃ i, instagramUrlShape (t.drop i)) →
        (findFrom matchInstagramAt t).isSome = true) := by
  refine ⟨matchTiktokAt_isSome_iff, matchInstagramAt_isSome_iff,
    ?_, ?_, ?_, ?_, ?_, ?_⟩
  · intro s r h
    exact take_matched_eq_takeWhile s r (matchTiktokAt_remainder s r h)
  · intro s r h
    exact take_matched_eq_takeWhile s r (matchInstagramAt_remainder s r h)
  · intro t u h
    obtain ⟨i, r, hall, hsome, hu⟩ := findFrom_eq_some _ t u h
    refine ⟨i, hall, (matchTiktokAt_isSome_iff _).mp (by rw [hsome]; rfl), ?_⟩
    rw [hu]
    exact take_matched_eq_takeWhile _ _ (matchTiktokAt_remainder _ _ hsome)
  · intro t u h
    obtain ⟨i, r, hall, hsome, hu⟩ := findFrom_eq_some _ t u h
    refine ⟨i, hall, (matchInstagramAt_isSome_iff _).mp (by rw [hsome]; rfl), ?_⟩
    rw [hu]
    exact take_matched_eq_takeWhile _ _ (matchInstagramAt_remainder _ _ hsome)
  · rintro t ⟨i, hi⟩
    rw [findFrom_isSome_iff]
    exact ⟨i, (matchTiktokAt_isSome_iff _).mpr hi⟩
  · rintro t ⟨i, hi⟩
    rw [findFrom_isSome_iff]
    exact ⟨i, (matchInstagramAt_isSome_iff _).mpr hi⟩

/-- C5 witness: the shape characterization applied to concrete URLs — a bare
TikTok domain link and an Instagram photo link are both accepted. -/
theorem C5_classifier_url_shape_witness :
    (matchTiktokAt (("https://tiktok.com/x").data)).isSome = true
    ∧ (matchInstagramAt (("https://instagram.com/p/Q").data)).isSome = true :=
  ⟨(C5_classifier_url_shape.1 _).mpr
    ⟨("https").data, [], 'x', [], by decide, by decide, by decide, by decide⟩,
   (C5_classifier_url_shape.2.1 _).mpr
    ⟨("https").data, [], ("p").data, 'Q', [],
      by decide, by decide, by decide, by decide, by decide⟩⟩

/-- C5 counterexample: the spec claims every whitespace-free path after the
platform domain is accepted, but the Instagram pattern requires the path to
start with reel/, p/, t/ or v/: the URL https://instagram.com/username has
the spec's claimed shape yet the Instagram matcher finds no match in it and
the classifier detects nothing. -/
theorem C5_counterexample_instagram_path :
    specClaimedInstagramShape (("https://instagram.com/username").data)
    ∧ findFrom matchInstagramAt (("https://instagram.com/username").data) = none
    ∧ classify (("https://instagram.com/username").data) = none := by
  refine ⟨⟨("https").data, [], 'u', ("sername").data,
    by decide, by decide, by decide, by decide⟩, by decide, by decide⟩

/-- C6: the reply serializer's single consumer performs, for each dequeued
(destination, text) pair in FIFO order, exactly one write of the
newline-terminated JSON-RPC send request followed by exactly one flush; the
second conjunct pins the encoded wire format on the spec's end-to-end
example. -/
theorem C6_serializer_fifo_format :
    (∀ queue : List (List Char × List Char),
      writerRun queue = (queue.map (fun p =>
        [StreamOp.write (encodeRequest p.1 p.2 ++ ['\n']),
         StreamOp.flush])).flatten)
    ∧ encodeRequest (("+1555").data) (("funny video").data) ++ ['\n']
        = ("\x7b\"jsonrpc\":\"2.0\",\"method\":\"send\",\"params\":\x7b\"recipient\":[\"+1555\"],\"message\":\"funny video\"\x7d,\"id\":\"100\"\x7d\n").data := by
  constructor
  · intro queue
    induction queue with
    | nil => rfl
    | cons p rest ih =>
      cases p with
      | mk r m => simp [writerRun, sendRpcOps, ih]
  · decide

/-- C8: under successful directory creation, every invocation of the
analysis task issues exactly this working-directory sequence: remove the
fixed path /tmp/brainrot_summarizer when it pre-exists, then create it and
its subs subdirectory fresh, and only then download — the paths are
constants, shared by every invocation regardless of the URL. -/
theorem C8_fixed_workdir (url : List Char) (env : PipelineEnv)
    (h1 : env.createTemp = Except.ok ())
    (h2 : env.createSubs = Except.ok ()) :
    (analyzeVideo url env).1 =
      (if env.tempDirExists then [FsOp.removeDirAll tempDirPath] else [])
        ++ [FsOp.createDirAll tempDirPath, FsOp.createDirAll subsDirPath,
            FsOp.download url] := by
  simp only [analyzeVideo, h1, h2]
  cases hdl : runDownload env.download with
  | error e => simp
  | ok v =>
    cases hex : runExtract env.extract with
    | error e => simp
    | ok u =>
      cases ho : env.opencode with
      | error e => simp
      | ok o =>
        by_cases hsucc : o.success = true <;> simp [hsucc]

/-- C8 witness: the working-directory theorem applied to a concrete run whose
temp directory pre-exists. -/
theorem C8_fixed_workdir_witness :
    (analyzeVideo (("https://vm.tiktok.com/ZMabc/").data)
      { tempDirExists := true,
        createTemp := Except.ok (),
        createSubs := Except.ok (),
        download := { ytdlp := Except.error (("Failed to run yt-dlp").data),
                      entries := [],
                      whisper := Except.error (("Failed to run whisper").data) },
        extract := { createFrames := Except.ok (),
                     ffmpeg := Except.error (("Failed to run ffmpeg").data) },
        opencode := Except.error (("Failed to run opencode").data) }).1
      = [FsOp.removeDirAll tempDirPath, FsOp.createDirAll tempDirPath,
         FsOp.createDirAll subsDirPath,
         FsOp.download (("https://vm.tiktok.com/ZMabc/").data)] := by
  have h := C8_fixed_workdir (("https://vm.tiktok.com/ZMabc/").data)
    { tempDirExists := true,
      createTemp := Except.ok (),
      createSubs := Except.ok (),
      download := { ytdlp := Except.error (("Failed to run yt-dlp").data),
                    entries := [],
                    whisper := Except.error (("Failed to run whisper").data) },
      extract := { createFrames := Except.ok (),
                   ffmpeg := Except.error (("Failed to run ffmpeg").data) },
      opencode := Except.error (("Failed to run opencode").data) } rfl rfl
  simpa using h
